import Mathlib

/-!
# A verification development for the temperature-analytics pipeline

The program (src/app.py) ingests a table of per-city daily temperature
records, overwrites the temperature column by a trailing moving average
(`smooth_temperature`), aggregates mean and sample standard deviation per
(city, season) group (`calculate_seasonal_statistics`), flags records lying
outside mean plus/minus two standard deviations of their group
(`find_anomalies`), fetches a live reading (`get_current_temperature`) and
classifies it against the current season's baseline (`main`).

Modelling conventions for the shallow embedding:

* A pandas DataFrame of records is a `List TemperatureRecord` in row order;
  the pandas row index is the list position, and the detector returns rows
  together with their original index, as `pd.concat` of group slices does.
* A float column that may hold NaN is `Option ℚ`; pandas aggregations skip
  NaN (the default skipna), and every comparison against NaN is false --
  the `Option` matches below reproduce exactly that.
* The sample standard deviation is carried by its exact square, the sample
  variance (field `std_sq`): the standard deviation itself is its
  nonnegative square root, which is irrational in general, and every
  comparison the code makes against `std` is rendered by the equivalent
  squared comparison.  The theorems relate the squared form back to the
  specification's `|x - mean| <= 2 std` form through an explicit
  nonnegative square-root hypothesis `s ^ 2 = v`.
* A pandas operation that raises on its edge case (`.values[0]` of an empty
  selection, `pd.concat` of an empty list) returns `none` instead.
* `groupby(['city', 'season'])` iterates its groups in ascending key order
  (pandas sorts group keys); `groupKeys` computes that sorted key list by
  ordered insertion.
-/

attribute [local semireducible] Rat.add Rat.mul Rat.sub Rat.inv

/-- One row of the ingested table, with the columns `load_data` requires:
`city`, `timestamp`, `season` and the float column `temperature`.  After
`smooth_temperature` the `temperature` column holds the smoothed value;
`none` models a NaN entry. -/
structure TemperatureRecord where
  city : String
  timestamp : Int
  season : String
  temperature : Option ℚ
deriving DecidableEq

/-- pandas `Series.mean()` with its default skipna: the arithmetic mean of
the non-NaN entries, NaN (here `none`) when there are none. -/
def seriesMean (xs : List (Option ℚ)) : Option ℚ :=
  let v := xs.filterMap id
  if v.length = 0 then none else some (v.sum / (v.length : ℚ))

/-- pandas `Series.std()` (sample standard deviation, ddof = 1, skipna),
represented by its square, the sample variance: NaN (here `none`) when
fewer than two non-NaN entries exist. -/
def seriesVar (xs : List (Option ℚ)) : Option ℚ :=
  let v := xs.filterMap id
  if v.length < 2 then none else
    let m := v.sum / (v.length : ℚ)
    some ((v.map (fun x => (x - m) ^ 2)).sum / ((v.length - 1 : ℕ) : ℚ))

/-- `Series.rolling(window = w).mean()` at position `i` of the column `xs`:
the mean of the `w` entries ending at `i`, NaN (`none`) when fewer than
`w` positions exist up to `i` or the window contains a NaN (the default
min_periods equals the window size). -/
def rollingMeanAt (xs : List (Option ℚ)) (w : Nat) (i : Nat) : Option ℚ :=
  if w ≤ i + 1 then
    let v := ((xs.take (i + 1)).drop (i + 1 - w)).filterMap id
    if v.length = w then some (v.sum / (w : ℚ)) else none
  else none

/-- `smooth_temperature` (src/app.py lines 13-16): replaces the whole
`temperature` column by its rolling mean over the entire frame, without any
partition by city. -/
def smooth_temperature (data : List TemperatureRecord) (window : Nat) :
    List TemperatureRecord :=
  let col := data.map (fun r => r.temperature)
  data.mapIdx (fun i r => { r with temperature := rollingMeanAt col window i })

/-- Lexicographic comparison of character lists by code point: how Python
orders the strings a groupby sorts by. -/
def charListLt : List Char → List Char → Bool
  | [], [] => false
  | [], _ :: _ => true
  | _ :: _, [] => false
  | a :: as, b :: bs =>
    if a < b then true else if b < a then false else charListLt as bs

/-- Python's string comparison: lexicographic by code point. -/
def strLt (a b : String) : Bool := charListLt a.data b.data

/-- Strict lexicographic order on the (city, season) grouping key: the order
in which pandas `groupby(['city', 'season'])` lists its groups (pandas
sorts group keys ascending). -/
def keyLt (a b : String × String) : Bool :=
  strLt a.1 b.1 || (a.1 == b.1 && strLt a.2 b.2)

/-- Ordered insertion without duplication, building the sorted key list of a
groupby. -/
def insertKey (k : String × String) :
    List (String × String) → List (String × String)
  | [] => [k]
  | x :: xs =>
    if keyLt k x then k :: x :: xs
    else if k = x then x :: xs
    else x :: insertKey k xs

/-- The keys of `data.groupby(['city', 'season'])`, in ascending order, one
entry per observed (city, season) pair. -/
def groupKeys (data : List TemperatureRecord) : List (String × String) :=
  data.foldl (fun acc r => insertKey (r.city, r.season) acc) []

/-- The rows of one groupby group, in original row order. -/
def groupRows (data : List TemperatureRecord) (k : String × String) :
    List TemperatureRecord :=
  data.filter (fun r => r.city == k.1 && r.season == k.2)

/-- One row of the table `calculate_seasonal_statistics` returns: the group
key and the aggregates `mean` and `std` of the group's temperature column,
the latter carried by its square `std_sq` (see the module comment). -/
structure SeasonalStat where
  city : String
  season : String
  mean : Option ℚ
  std_sq : Option ℚ
deriving DecidableEq

/-- `calculate_seasonal_statistics` (src/app.py lines 18-20):
`data.groupby(['city', 'season'])['temperature'].agg(['mean', 'std'])`,
one output row per group in ascending key order. -/
def calculate_seasonal_statistics (data : List TemperatureRecord) :
    List SeasonalStat :=
  (groupKeys data).map (fun k =>
    let col := (groupRows data k).map (fun r => r.temperature)
    { city := k.1, season := k.2, mean := seriesMean col,
      std_sq := seriesVar col })

/-- The rows of one groupby group together with their original row index:
the sub-frame `group` of the loop in `find_anomalies`. -/
def group_with_index (data : List TemperatureRecord) (k : String × String) :
    List (Nat × TemperatureRecord) :=
  data.enum.filter (fun p => p.2.city == k.1 && p.2.season == k.2)

/-- The aggregates `group['temperature'].mean()` and
`group['temperature'].std()` computed inside `find_anomalies` (src/app.py
lines 26-27) for the group keyed `k`, the standard deviation again carried
by its square. -/
def detector_group_stats (data : List TemperatureRecord)
    (k : String × String) : Option ℚ × Option ℚ :=
  let col := (group_with_index data k).map (fun p => p.2.temperature)
  (seriesMean col, seriesVar col)

/-- The anomaly condition of src/app.py line 28,
`t < mean - 2 std or t > mean + 2 std`, in squared form: for a defined
standard deviation `std = sqrt v >= 0` the disjunction is exactly
`(t - mean) ^ 2 > 4 v`; a NaN on either side makes both comparisons false,
which the catch-all match arm reproduces. -/
def anomalyCond (mean std_sq t : Option ℚ) : Bool :=
  match t, mean, std_sq with
  | some t, some m, some v => decide ((t - m) ^ 2 > 4 * v)
  | _, _, _ => false

/-- `find_anomalies` (src/app.py lines 22-30): per group in ascending key
order, keep the rows satisfying the anomaly condition, then `pd.concat` the
slices.  `pd.concat` raises `ValueError` on an empty list -- with zero
groups, hence exactly on an empty frame -- modelled as `none`. -/
def find_anomalies (data : List TemperatureRecord) :
    Option (List (Nat × TemperatureRecord)) :=
  let groups := (groupKeys data).map (fun k =>
    let s := detector_group_stats data k
    (group_with_index data k).filter (fun p => anomalyCond s.1 s.2 p.2.temperature))
  if groups.isEmpty then none else some groups.flatten

/-- `analyze_temperature_data` (src/app.py lines 41-48): smooth with the
default window 30, then compute the seasonal statistics and the anomaly
subset of the smoothed frame. -/
def analyze_temperature_data (data : List TemperatureRecord) :
    List TemperatureRecord × List SeasonalStat ×
      Option (List (Nat × TemperatureRecord)) :=
  let d := smooth_temperature data 30
  (d, calculate_seasonal_statistics d, find_anomalies d)

/-- The body the weather provider returns: `main.temp` on success, a
`message` string on failure (either may be absent from the JSON). -/
structure WeatherJson where
  temp : Option ℚ
  message : Option String
deriving DecidableEq

/-- `get_current_temperature` (src/app.py lines 32-39): on status 200 the
pair (temperature, None), otherwise (None, the whole response body). -/
def get_current_temperature (status_code : Nat) (body : WeatherJson) :
    Option ℚ × Option WeatherJson :=
  if status_code = 200 then (body.temp, none) else (none, some body)

/-- pandas `Series.max()`: the maximum entry, NaN (`none`) on an empty
series. -/
def col_max : List Int → Option Int
  | [] => none
  | x :: xs =>
    match col_max xs with
    | none => some x
    | some m => some (max x m)

/-- src/app.py line 109: the `season` value of the first row whose
timestamp attains `data['timestamp'].max()`; `.values[0]` raises on an
empty selection, modelled as `none`. -/
def current_season (dc : List TemperatureRecord) : Option String :=
  match col_max (dc.map (fun r => r.timestamp)) with
  | none => none
  | some mx => (dc.find? (fun r => r.timestamp == mx)).map (fun r => r.season)

/-- src/app.py lines 110-111: the first seasonal-stats row of the given
season (the frame was already filtered to the selected city); `.values[0]`
raises when no row matches, modelled as `none`. -/
def lookupStat (stats : List SeasonalStat) (sn : String) : Option SeasonalStat :=
  stats.find? (fun st => st.season == sn)

/-- src/app.py line 112, `abs(current_temp - seasonal_mean) <= 2 *
seasonal_std`, in squared form; a NaN mean or NaN standard deviation makes
the comparison false, as in pandas. -/
def is_normal_calc (t : ℚ) (mean std_sq : Option ℚ) : Bool :=
  match mean, std_sq with
  | some m, some v => decide ((t - m) ^ 2 ≤ 4 * v)
  | _, _ => false

/-- src/app.py lines 109-112: the live-classification block of `main`,
given the city-filtered frame, the city-filtered seasonal statistics and
the fetched temperature.  `none` models the uncaught IndexError the block
raises when a `.values[0]` selection is empty. -/
def classify_live (dc : List TemperatureRecord) (sc : List SeasonalStat)
    (t : ℚ) : Option Bool :=
  match current_season dc with
  | none => none
  | some sn =>
    match lookupStat sc sn with
    | none => none
    | some st => some (is_normal_calc t st.mean st.std_sq)

/-- src/app.py line 78: the status string `display_results` prints for the
live reading; the code knows only these two outcomes. -/
def display_status (b : Bool) : String :=
  if b then "нормальна" else "аномальна"

/-- What `main` does with the live reading: shows it with its
classification, or shows the fetch error, or raises (`crash`) when a
`.values[0]` lookup fails. -/
inductive LiveOutcome where
  | shown (temp : ℚ) (ok : Bool)
  | fetchError (err : Option WeatherJson)
  | crash
deriving DecidableEq

/-- src/app.py lines 90-104: the historical results after the city filter:
the smoothed frame, the seasonal statistics and the anomaly subset, each
restricted to the selected city. -/
def historical_results (data0 : List TemperatureRecord) (city : String) :
    List TemperatureRecord × List SeasonalStat ×
      Option (List (Nat × TemperatureRecord)) :=
  let a := analyze_temperature_data data0
  (a.1.filter (fun r => r.city == city),
   a.2.1.filter (fun st => st.city == city),
   a.2.2.map (fun l => l.filter (fun p => p.2.city == city)))

/-- src/app.py lines 106-116: the live branch of `main`: fetch, then either
classify against the current season's row or report the fetch error. -/
def live_outcome (data0 : List TemperatureRecord) (city : String)
    (status_code : Nat) (body : WeatherJson) : LiveOutcome :=
  let h := historical_results data0 city
  let f := get_current_temperature status_code body
  match f.1 with
  | some t =>
    match classify_live h.1 h.2.1 t with
    | some b => LiveOutcome.shown t b
    | none => LiveOutcome.crash
  | none => LiveOutcome.fetchError f.2

/-- The full run of `main` for one uploaded dataset, one selected city and
one provider response: the historical results and the live outcome. -/
def main_flow (data0 : List TemperatureRecord) (city : String)
    (status_code : Nat) (body : WeatherJson) :
    (List TemperatureRecord × List SeasonalStat ×
      Option (List (Nat × TemperatureRecord))) × LiveOutcome :=
  (historical_results data0 city, live_outcome data0 city status_code body)

/-- src/app.py line 116: the error text `main` shows on a failed fetch,
quoting the provider's `message` field; `none` models the KeyError when the
body has no such field. -/
def error_display (err : Option WeatherJson) : Option String :=
  (err.bind (fun j => j.message)).map (fun m => "Ошибка: " ++ m)

/-- Stated from the specification's words, for comparison with
`smooth_temperature`: the arithmetic mean of the trailing `w` raw
temperatures of the same city as the record at position `i` (the smoothing
the specification requires, partitioned by city). -/
def spec_city_trailing_mean (data : List TemperatureRecord) (w i : Nat) :
    Option ℚ :=
  match data.get? i with
  | none => none
  | some r =>
    let v := (((data.take (i + 1)).filter (fun q => q.city == r.city)).map
        (fun q => q.temperature)).filterMap id
    if w ≤ v.length then some ((v.reverse.take w).sum / (w : ℚ)) else none

/-- The order in which the detector actually emits rows: ascending
(city, season) group key first, original row position second. -/
def keyIdxLt (a b : Nat × TemperatureRecord) : Prop :=
  keyLt (a.2.city, a.2.season) (b.2.city, b.2.season) = true
    ∨ ((a.2.city, a.2.season) = (b.2.city, b.2.season) ∧ a.1 < b.1)

/-- A record with all four columns present, raw temperature `t`. -/
def mkRec (c : String) (ts : Int) (sn : String) (t : ℚ) : TemperatureRecord :=
  ⟨c, ts, sn, some t⟩

/-- Interleaved two-city data: the dataset on which the rolling mean of the
code and the per-city trailing mean of the specification part ways. -/
def c1data : List TemperatureRecord :=
  [mkRec "A" 0 "s" 0, mkRec "B" 1 "s" 10, mkRec "A" 2 "s" 0,
   mkRec "B" 3 "s" 10, mkRec "A" 4 "s" 0, mkRec "B" 5 "s" 10]

/-- Nine same-key records, eight at temperature 0 and a last one at 9: the
group has mean 1 and sample variance 9 (standard deviation 3), and its last
record is more than two standard deviations out. -/
def nineRun (c : String) (t0 : Int) : List TemperatureRecord :=
  [mkRec c t0 "s" 0, mkRec c (t0 + 1) "s" 0, mkRec c (t0 + 2) "s" 0,
   mkRec c (t0 + 3) "s" 0, mkRec c (t0 + 4) "s" 0, mkRec c (t0 + 5) "s" 0,
   mkRec c (t0 + 6) "s" 0, mkRec c (t0 + 7) "s" 0, mkRec c (t0 + 8) "s" 9]

/-- City "B" rows first, city "A" rows after: each group holds one anomaly,
and the detector lists the "A" anomaly first although it came last. -/
def c5data : List TemperatureRecord := nineRun "B" 0 ++ nineRun "A" 9

/-- A one-record frame: its single (city, season) group has an undefined
sample standard deviation. -/
def oneRec : List TemperatureRecord := [mkRec "A" 0 "w" 1]

/-- Three raw records; smoothing with window 2 leaves the first without a
value. -/
def d8raw : List TemperatureRecord :=
  [mkRec "A" 0 "w" 0, mkRec "A" 1 "w" 1, mkRec "A" 2 "w" 100]

theorem charListLt_irrefl : ∀ l : List Char, charListLt l l = false
  | [] => rfl
  | a :: as => by simp [charListLt, charListLt_irrefl as]

theorem charListLt_trans (a : List Char) : ∀ b c,
    charListLt a b = true → charListLt b c = true → charListLt a c = true := by
  induction a with
  | nil =>
    intro b c h1 h2
    cases b with
    | nil => simp [charListLt] at h1
    | cons b bs =>
      cases c with
      | nil => simp [charListLt] at h2
      | cons c cs => simp [charListLt]
  | cons a as ih =>
    intro b c h1 h2
    cases b with
    | nil => simp [charListLt] at h1
    | cons b bs =>
      cases c with
      | nil => simp [charListLt] at h2
      | cons c cs =>
        simp only [charListLt] at h1 h2 ⊢
        by_cases hab : a < b
        · by_cases hbc : b < c
          · simp [lt_trans hab hbc]
          · simp only [if_neg hbc] at h2
            by_cases hcb : c < b
            · simp [hcb] at h2
            · have hbc' : b = c := le_antisymm (not_lt.mp hcb) (not_lt.mp hbc)
              simp [hbc' ▸ hab]
        · simp only [if_neg hab] at h1
          by_cases hba : b < a
          · simp [hba] at h1
          · simp only [if_neg hba] at h1
            have hab' : a = b := le_antisymm (not_lt.mp hba) (not_lt.mp hab)
            subst hab'
            by_cases hac : a < c
            · simp [hac]
            · simp only [if_neg hac] at h2 ⊢
              by_cases hca : c < a
              · simp [hca] at h2
              · simp only [if_neg hca] at h2 ⊢
                exact ih bs cs h1 h2

theorem charListLt_conn (a : List Char) : ∀ b, a ≠ b →
    charListLt a b = false → charListLt b a = true := by
  induction a with
  | nil =>
    intro b hne h
    cases b with
    | nil => exact absurd rfl hne
    | cons b bs => simp [charListLt] at h
  | cons a as ih =>
    intro b hne h
    cases b with
    | nil => rfl
    | cons b bs =>
      simp only [charListLt] at h ⊢
      by_cases hab : a < b
      · simp [hab] at h
      · simp only [if_neg hab] at h
        by_cases hba : b < a
        · simp [hba]
        · simp only [if_neg hba] at h ⊢
          simp only [if_neg hab]
          have hab' : a = b := le_antisymm (not_lt.mp hba) (not_lt.mp hab)
          refine ih bs ?_ h
          intro hcontra
          exact hne (by rw [hab', hcontra])

theorem str_data_inj {a b : String} (h : a.data = b.data) : a = b := by
  cases a with
  | mk da =>
    cases b with
    | mk db => exact congrArg String.mk h

theorem strLt_irrefl (a : String) : strLt a a = false :=
  charListLt_irrefl a.data

theorem strLt_trans {a b c : String} (h1 : strLt a b = true)
    (h2 : strLt b c = true) : strLt a c = true :=
  charListLt_trans a.data b.data c.data h1 h2

theorem strLt_conn {a b : String} (hne : a ≠ b) (h : strLt a b = false) :
    strLt b a = true :=
  charListLt_conn a.data b.data (fun hd => hne (str_data_inj hd)) h

theorem strLt_ne {a b : String} (h : strLt a b = true) : a ≠ b := by
  intro he
  rw [he, strLt_irrefl] at h
  exact Bool.false_ne_true h

theorem keyLt_trans {a b c : String × String} (h1 : keyLt a b = true)
    (h2 : keyLt b c = true) : keyLt a c = true := by
  simp only [keyLt, Bool.or_eq_true, Bool.and_eq_true, beq_iff_eq] at h1 h2 ⊢
  rcases h1 with h1 | ⟨h1e, h1s⟩
  · rcases h2 with h2 | ⟨h2e, h2s⟩
    · exact Or.inl (strLt_trans h1 h2)
    · exact Or.inl (h2e ▸ h1)
  · rcases h2 with h2 | ⟨h2e, h2s⟩
    · exact Or.inl (h1e ▸ h2)
    · exact Or.inr ⟨h1e.trans h2e, strLt_trans h1s h2s⟩

theorem keyLt_conn {a b : String × String} (hne : a ≠ b)
    (h : keyLt a b = false) : keyLt b a = true := by
  simp only [keyLt, Bool.or_eq_false_iff, Bool.and_eq_false_iff,
    Bool.or_eq_true, Bool.and_eq_true, beq_iff_eq, beq_eq_false_iff_ne] at h ⊢
  obtain ⟨h1, h2⟩ := h
  by_cases he : a.1 = b.1
  · rcases h2 with h2 | h2
    · exact absurd he h2
    · have hne2 : a.2 ≠ b.2 := by
        intro h22
        exact hne (Prod.ext he h22)
      exact Or.inr ⟨he.symm, strLt_conn hne2 h2⟩
  · exact Or.inl (strLt_conn he h1)

theorem keyLt_irrefl (a : String × String) : keyLt a a = false := by
  simp [keyLt, strLt_irrefl]

theorem mem_insertKey {k a : String × String} :
    ∀ {l : List (String × String)}, a ∈ insertKey k l ↔ a = k ∨ a ∈ l := by
  intro l
  induction l with
  | nil => simp [insertKey]
  | cons x xs ih =>
    simp only [insertKey]
    by_cases h1 : keyLt k x = true
    · rw [if_pos h1]
      simp only [List.mem_cons]
    · rw [if_neg h1]
      by_cases h2 : k = x
      · rw [if_pos h2]
        subst h2
        simp only [List.mem_cons]
        tauto
      · rw [if_neg h2]
        simp only [List.mem_cons, ih]
        tauto

theorem insertKey_ne_nil (k : String × String) :
    ∀ l : List (String × String), insertKey k l ≠ [] := by
  intro l
  cases l with
  | nil => simp [insertKey]
  | cons x xs =>
    simp only [insertKey]
    by_cases h1 : keyLt k x = true
    · simp [h1]
    · simp only [if_neg h1]
      by_cases h2 : k = x <;> simp [h2]

theorem pairwise_insertKey {k : String × String} :
    ∀ {l : List (String × String)},
      l.Pairwise (fun a b => keyLt a b = true) →
      (insertKey k l).Pairwise (fun a b => keyLt a b = true) := by
  intro l
  induction l with
  | nil => simp [insertKey]
  | cons x xs ih =>
    intro h
    rw [List.pairwise_cons] at h
    obtain ⟨hx, hxs⟩ := h
    simp only [insertKey]
    by_cases h1 : keyLt k x = true
    · rw [if_pos h1]
      refine List.Pairwise.cons ?_ (List.Pairwise.cons hx hxs)
      intro b hb
      rcases List.mem_cons.mp hb with hb | hb
      · exact hb ▸ h1
      · exact keyLt_trans h1 (hx b hb)
    · rw [if_neg h1]
      by_cases h2 : k = x
      · rw [if_pos h2]
        exact List.Pairwise.cons hx hxs
      · rw [if_neg h2]
        refine List.Pairwise.cons ?_ (ih hxs)
        intro b hb
        rcases mem_insertKey.mp hb with hb | hb
        · subst hb
          exact keyLt_conn h2 (Bool.not_eq_true _ ▸ h1)
        · exact hx b hb

theorem mem_foldl_insertKey (data : List TemperatureRecord) :
    ∀ (acc : List (String × String)) (k : String × String),
      (k ∈ data.foldl (fun acc r => insertKey (r.city, r.season) acc) acc) ↔
        k ∈ acc ∨ ∃ r ∈ data, (r.city, r.season) = k := by
  induction data with
  | nil => simp
  | cons r rest ih =>
    intro acc k
    rw [List.foldl_cons, ih, mem_insertKey]
    simp only [List.exists_mem_cons_iff]
    constructor
    · rintro ((h | h) | h)
      · exact Or.inr (Or.inl h.symm)
      · exact Or.inl h
      · exact Or.inr (Or.inr h)
    · rintro (h | (h | h))
      · exact Or.inl (Or.inr h)
      · exact Or.inl (Or.inl h.symm)
      · exact Or.inr h

theorem mem_groupKeys {data : List TemperatureRecord} {k : String × String} :
    k ∈ groupKeys data ↔ ∃ r ∈ data, (r.city, r.season) = k := by
  rw [groupKeys, mem_foldl_insertKey]
  simp

theorem pairwise_groupKeys (data : List TemperatureRecord) :
    (groupKeys data).Pairwise (fun a b => keyLt a b = true) := by
  rw [groupKeys]
  have h : ∀ (rest : List TemperatureRecord) (acc : List (String × String)),
      acc.Pairwise (fun a b => keyLt a b = true) →
      (rest.foldl (fun acc r => insertKey (r.city, r.season) acc)
        acc).Pairwise (fun a b => keyLt a b = true) := by
    intro rest
    induction rest with
    | nil => intro acc hacc; exact hacc
    | cons r rs ih =>
      intro acc hacc
      rw [List.foldl_cons]
      exact ih _ (pairwise_insertKey hacc)
  exact h data [] (by simp)

theorem groupKeys_ne_nil {data : List TemperatureRecord} (h : data ≠ []) :
    groupKeys data ≠ [] := by
  have haux : ∀ (rest : List TemperatureRecord) (acc : List (String × String)),
      acc ≠ [] →
      rest.foldl (fun acc r => insertKey (r.city, r.season) acc) acc ≠ [] := by
    intro rest
    induction rest with
    | nil => intro acc hacc; exact hacc
    | cons r rs ih =>
      intro acc hacc
      rw [List.foldl_cons]
      exact ih _ (insertKey_ne_nil _ _)
  cases data with
  | nil => exact absurd rfl h
  | cons r rs =>
    rw [groupKeys, List.foldl_cons]
    exact haux rs _ (insertKey_ne_nil _ _)

theorem pairwise_fst_lt_enumFrom {α : Type} (l : List α) :
    ∀ n : Nat, (List.enumFrom n l).Pairwise (fun p q => p.1 < q.1) := by
  induction l with
  | nil => intro n; simp
  | cons x xs ih =>
    intro n
    simp only [List.enumFrom]
    refine List.Pairwise.cons ?_ (ih (n + 1))
    rintro ⟨qi, qa⟩ hq
    exact lt_of_lt_of_le (Nat.lt_succ_self n) (List.mem_enumFrom hq).1

theorem pairwise_fst_lt_enum {α : Type} (l : List α) :
    l.enum.Pairwise (fun p q => p.1 < q.1) :=
  pairwise_fst_lt_enumFrom l 0

theorem enumFrom_filter_map {α β : Type} (f : α → Bool) (g : α → β) :
    ∀ (l : List α) (n : Nat),
      ((List.enumFrom n l).filter (fun p => f p.2)).map (fun p => g p.2)
        = (l.filter f).map g := by
  intro l
  induction l with
  | nil => intro n; rfl
  | cons x xs ih =>
    intro n
    simp only [List.enumFrom, List.filter_cons]
    by_cases hf : f x = true
    · simp [hf, ih]
    · rw [Bool.not_eq_true] at hf
      simp [hf, ih]

theorem group_col_eq (data : List TemperatureRecord) (k : String × String) :
    (group_with_index data k).map (fun p => p.2.temperature)
      = (groupRows data k).map (fun r => r.temperature) := by
  rw [group_with_index, groupRows, List.enum]
  exact enumFrom_filter_map (fun r => r.city == k.1 && r.season == k.2)
    (fun r => r.temperature) data 0

theorem detector_group_stats_eq (data : List TemperatureRecord)
    (k : String × String) :
    detector_group_stats data k =
      (seriesMean ((groupRows data k).map (fun r => r.temperature)),
       seriesVar ((groupRows data k).map (fun r => r.temperature))) := by
  rw [detector_group_stats, group_col_eq]

theorem mem_group_with_index {data : List TemperatureRecord}
    {k : String × String} {i : Nat} {r : TemperatureRecord} :
    (i, r) ∈ group_with_index data k ↔
      data.get? i = some r ∧ r.city = k.1 ∧ r.season = k.2 := by
  rw [group_with_index, List.mem_filter, List.mem_enum_iff_get?]
  simp [Bool.and_eq_true, beq_iff_eq]

theorem find_anomalies_eq {data : List TemperatureRecord}
    (h : data ≠ []) :
    find_anomalies data = some (((groupKeys data).map (fun k =>
      (group_with_index data k).filter (fun p =>
        anomalyCond (detector_group_stats data k).1
          (detector_group_stats data k).2 p.2.temperature))).flatten) := by
  rw [find_anomalies]
  have hne : ((groupKeys data).map (fun k =>
      (group_with_index data k).filter (fun p =>
        anomalyCond (detector_group_stats data k).1
          (detector_group_stats data k).2 p.2.temperature))).isEmpty = false := by
    rw [List.isEmpty_eq_false_iff_exists_mem]
    obtain ⟨k, hk⟩ := List.exists_mem_of_ne_nil _ (groupKeys_ne_nil h)
    exact ⟨_, List.mem_map_of_mem _ hk⟩
  rw [hne]
  simp

theorem find_anomalies_mem {data : List TemperatureRecord}
    {l : List (Nat × TemperatureRecord)} (hl : find_anomalies data = some l)
    {i : Nat} {r : TemperatureRecord} :
    (i, r) ∈ l ↔ data.get? i = some r ∧
      anomalyCond (detector_group_stats data (r.city, r.season)).1
        (detector_group_stats data (r.city, r.season)).2
        r.temperature = true := by
  have hdne : data ≠ [] := by
    intro he
    subst he
    simp [find_anomalies, groupKeys] at hl
  rw [find_anomalies_eq hdne] at hl
  have hl' := (Option.some_inj.mp hl).symm
  subst hl'
  rw [List.mem_flatten]
  constructor
  · rintro ⟨gl, hgl, hmem⟩
    obtain ⟨k, hk, hGk⟩ := List.mem_map.mp hgl
    subst hGk
    obtain ⟨hgrp, hcond⟩ := List.mem_filter.mp hmem
    obtain ⟨hget, hcity, hseason⟩ := mem_group_with_index.mp hgrp
    have hkey : k = (r.city, r.season) := by
      rcases k with ⟨k1, k2⟩
      simp only at hcity hseason
      rw [hcity, hseason]
    subst hkey
    exact ⟨hget, hcond⟩
  · rintro ⟨hget, hcond⟩
    refine ⟨_, List.mem_map_of_mem _ (mem_groupKeys.mpr
      ⟨r, List.get?_mem hget, rfl⟩), ?_⟩
    exact List.mem_filter.mpr ⟨mem_group_with_index.mpr ⟨hget, rfl, rfl⟩, hcond⟩

theorem col_max_eq_none : ∀ {l : List Int}, col_max l = none ↔ l = []
  | [] => by simp [col_max]
  | x :: xs => by
    simp only [col_max]
    cases h : col_max xs <;> simp

theorem col_max_le : ∀ {l : List Int} {m : Int}, col_max l = some m →
    ∀ x ∈ l, x ≤ m := by
  intro l
  induction l with
  | nil => intro m h x hx; simp at hx
  | cons a as ih =>
    intro m h x hx
    simp only [col_max] at h
    cases hc : col_max as with
    | none =>
      rw [hc] at h
      cases h
      have hnil : as = [] := col_max_eq_none.mp hc
      subst hnil
      simp at hx
      exact hx ▸ le_refl _
    | some m' =>
      rw [hc] at h
      cases h
      rcases List.mem_cons.mp hx with hx | hx
      · exact hx ▸ le_max_left _ _
      · exact le_trans (ih hc x hx) (le_max_right _ _)

theorem sq_le_four_iff {x s : ℚ} (hs : 0 ≤ s) :
    x ^ 2 ≤ 4 * s ^ 2 ↔ |x| ≤ 2 * s := by
  have h4 : 4 * s ^ 2 = (2 * s) ^ 2 := by ring
  rw [h4, sq_le_sq, abs_of_nonneg (by linarith : (0:ℚ) ≤ 2 * s)]

theorem four_lt_sq_iff {x s : ℚ} (hs : 0 ≤ s) :
    4 * s ^ 2 < x ^ 2 ↔ 2 * s < |x| := by
  have h4 : 4 * s ^ 2 = (2 * s) ^ 2 := by ring
  rw [h4, sq_lt_sq, abs_of_nonneg (by linarith : (0:ℚ) ≤ 2 * s)]

theorem seriesVar_none_of_short {xs : List (Option ℚ)} (h : xs.length < 2) :
    seriesVar xs = none := by
  rw [seriesVar]
  have hshort : (xs.filterMap id).length < 2 :=
    lt_of_le_of_lt (List.length_filterMap_le _ _) h
  rw [if_pos hshort]

theorem anomalyCond_none_std (m t : Option ℚ) :
    anomalyCond m none t = false := by
  cases t <;> cases m <;> rfl

theorem anomalyCond_none_temp (m v : Option ℚ) :
    anomalyCond m v none = false := by
  cases m <;> cases v <;> rfl

theorem mem_anomaly_group_key {data : List TemperatureRecord}
    {k : String × String} {p : Nat × TemperatureRecord}
    (hp : p ∈ (group_with_index data k).filter (fun q =>
      anomalyCond (detector_group_stats data k).1
        (detector_group_stats data k).2 q.2.temperature)) :
    (p.2.city, p.2.season) = k := by
  obtain ⟨i, r⟩ := p
  obtain ⟨hg, -⟩ := List.mem_filter.mp hp
  obtain ⟨-, h1, h2⟩ := mem_group_with_index.mp hg
  simp only
  rw [h1, h2]

/-- C1: the claim fails on the code.  `smooth_temperature` computes the
rolling mean over the whole interleaved frame, never partitioning by city:
at position 5 of `c1data` — a city-"B" row with at least two same-city
records in reach — the code blends a city-"A" raw value 0 with a city-"B"
raw value 10 and yields 5, while the arithmetic mean of the trailing two
same-city raw temperatures (the value the claim promises) is 10. -/
theorem C1_smoothing_mixes_cities :
    ∃ r : TemperatureRecord, (smooth_temperature c1data 2).get? 5 = some r
      ∧ r.temperature = some 5
      ∧ spec_city_trailing_mean c1data 2 5 = some 10 := by
  refine ⟨⟨"B", 5, "s", some 5⟩, by decide, by decide, by decide⟩

/-- C2: the live classification of src/app.py lines 109-112: the current
season is the season of a chronologically latest record of the
city-filtered frame, the baseline is that season's SeasonalStat row, and
for a defined baseline the result is `is_normal = |live - mean| ≤ 2 std`,
where `std` is the nonnegative square root `s` of the stored variance. -/
theorem C2_live_classification
    (dc : List TemperatureRecord) (sc : List SeasonalStat) (t : ℚ)
    (sn : String) (st : SeasonalStat) (m v s : ℚ)
    (hs : current_season dc = some sn)
    (hst : lookupStat sc sn = some st)
    (hm : st.mean = some m) (hv : st.std_sq = some v)
    (hs0 : 0 ≤ s) (hsq : s ^ 2 = v) :
    (∃ r ∈ dc, r.season = sn ∧ ∀ q ∈ dc, q.timestamp ≤ r.timestamp)
      ∧ classify_live dc sc t = some (decide (|t - m| ≤ 2 * s)) := by
  constructor
  · cases hmx : col_max (dc.map (fun r => r.timestamp)) with
    | none => simp [current_season, hmx] at hs
    | some mx =>
      simp only [current_season, hmx] at hs
      obtain ⟨r0, hr0, hsn⟩ := Option.map_eq_some'.mp hs
      refine ⟨r0, List.mem_of_find?_eq_some hr0, hsn, ?_⟩
      intro q hq
      have hr0ts : r0.timestamp = mx := by
        have hpred := List.find?_some hr0
        simpa [beq_iff_eq] using hpred
      rw [hr0ts]
      exact col_max_le hmx _ (List.mem_map_of_mem _ hq)
  · simp only [classify_live, hs, hst, is_normal_calc, hm, hv]
    congr 1
    rw [decide_eq_decide]
    subst hsq
    exact sq_le_four_iff hs0

theorem C2_live_classification_witness :
    (∃ r ∈ oneRec, r.season = "w" ∧ ∀ q ∈ oneRec, q.timestamp ≤ r.timestamp)
      ∧ classify_live oneRec [⟨"A", "w", some 0, some 1⟩] 5
          = some (decide (|(5 : ℚ) - 0| ≤ 2 * 1)) :=
  C2_live_classification oneRec [⟨"A", "w", some 0, some 1⟩] 5 "w"
    ⟨"A", "w", some 0, some 1⟩ 0 1 1 (by decide) (by decide) rfl rfl
    (by decide) (by decide)

/-- C3: the claim fails on the code.  When the current-season group of the
selected city has a single sample, its seasonal std is NaN, line 112's
comparison silently evaluates to false, and `display_results` reports the
reading as "аномальна" (anomalous) — not "indeterminate", which the code
cannot produce at all; and were the seasonal-stats row for the current
season missing, line 110's `.values[0]` would raise an uncaught IndexError
(modelled by `none`) rather than report "indeterminate". -/
theorem C3_no_indeterminate_outcome :
    calculate_seasonal_statistics oneRec = [⟨"A", "w", some 1, none⟩]
      ∧ classify_live oneRec (calculate_seasonal_statistics oneRec) 100
          = some false
      ∧ display_status false = "аномальна"
      ∧ classify_live oneRec [] 100 = none := by
  exact ⟨by decide, by decide, rfl, by decide⟩

/-- C4: for the record at position `i` of the store, with a present
smoothed value `t` and a defined standard deviation `s = sqrt v ≥ 0` for
its (city, season) group, membership in the anomaly output is exactly
`|t - group mean| > 2 s` — the condition of src/app.py line 28. -/
theorem C4_anomaly_iff_two_sigma
    (data : List TemperatureRecord) (l : List (Nat × TemperatureRecord))
    (i : Nat) (r : TemperatureRecord) (t m v s : ℚ)
    (hl : find_anomalies data = some l)
    (hget : data.get? i = some r)
    (ht : r.temperature = some t)
    (hm : seriesMean ((groupRows data (r.city, r.season)).map
      (fun q => q.temperature)) = some m)
    (hv : seriesVar ((groupRows data (r.city, r.season)).map
      (fun q => q.temperature)) = some v)
    (hs0 : 0 ≤ s) (hsq : s ^ 2 = v) :
    ((i, r) ∈ l) ↔ 2 * s < |t - m| := by
  rw [find_anomalies_mem hl]
  simp only [detector_group_stats_eq, hm, hv, ht, anomalyCond]
  rw [decide_eq_true_eq]
  subst hsq
  constructor
  · rintro ⟨-, h⟩
    exact (four_lt_sq_iff hs0).mp h
  · intro h
    exact ⟨hget, (four_lt_sq_iff hs0).mpr h⟩

theorem C4_anomaly_iff_two_sigma_witness :
    ((8, mkRec "A" 8 "s" 9) ∈ [(8, mkRec "A" 8 "s" 9)])
      ↔ 2 * 3 < |(9 : ℚ) - 1| :=
  C4_anomaly_iff_two_sigma (nineRun "A" 0) [(8, mkRec "A" 8 "s" 9)]
    8 (mkRec "A" 8 "s" 9) 9 1 9 3 (by decide) (by decide) rfl
    (by decide) (by decide) (by decide) (by decide)

/-- C5 counterexample: the claim fails on the code.  On `c5data` — every
city-"B" row preceding every city-"A" row — the two flagged records come
back in ascending group-key order: the city-"A" anomaly (original position
17) is listed before the city-"B" anomaly (original position 8), inverting
their original relative order. -/
theorem C5_order_not_preserved :
    find_anomalies c5data
        = some [(17, mkRec "A" 17 "s" 9), (8, mkRec "B" 8 "s" 9)]
      ∧ (8 : Nat) < 17 := by
  exact ⟨by decide, by decide⟩

/-- C5 amended: every output element is the store's row at its original
index, and the output is sorted by (city, season) group key first
(ascending — pandas' group iteration order) and original position second:
the original relative order is preserved within each group, while across
groups the output follows key order, not input order. -/
theorem C5_amended_grouped_order
    (data : List TemperatureRecord) (l : List (Nat × TemperatureRecord))
    (hl : find_anomalies data = some l) :
    (∀ p ∈ l, data.get? p.1 = some p.2) ∧ l.Pairwise keyIdxLt := by
  constructor
  · rintro ⟨i, r⟩ hp
    exact ((find_anomalies_mem hl).mp hp).1
  · have hdne : data ≠ [] := by
      intro he
      subst he
      simp [find_anomalies, groupKeys] at hl
    rw [find_anomalies_eq hdne] at hl
    have hl' := (Option.some_inj.mp hl).symm
    subst hl'
    rw [List.pairwise_flatten]
    constructor
    · intro gl hgl
      obtain ⟨k, hk, hGk⟩ := List.mem_map.mp hgl
      subst hGk
      have hpw : ((group_with_index data k).filter (fun p =>
          anomalyCond (detector_group_stats data k).1
            (detector_group_stats data k).2
            p.2.temperature)).Pairwise (fun p q => p.1 < q.1) :=
        ((pairwise_fst_lt_enum data).filter _).filter _
      refine hpw.imp_of_mem ?_
      intro a b ha hb hab
      exact Or.inr
        ⟨(mem_anomaly_group_key ha).trans (mem_anomaly_group_key hb).symm, hab⟩
    · rw [List.pairwise_map]
      refine (pairwise_groupKeys data).imp_of_mem ?_
      intro k1 k2 hk1 hk2 hlt x hx y hy
      refine Or.inl ?_
      rw [mem_anomaly_group_key hx, mem_anomaly_group_key hy]
      exact hlt

theorem C5_amended_grouped_order_witness :
    (∀ p ∈ [(8, mkRec "A" 8 "s" 9)],
        (nineRun "A" 0).get? p.1 = some p.2)
      ∧ ([(8, mkRec "A" 8 "s" 9)] :
          List (Nat × TemperatureRecord)).Pairwise keyIdxLt :=
  C5_amended_grouped_order (nineRun "A" 0) [(8, mkRec "A" 8 "s" 9)]
    (by decide)

/-- C6: a (city, season) group with fewer than two records carries an
undefined (NaN, modelled `none`) sample standard deviation in its
SeasonalStat row — an explicit sentinel, not zero and not an exception —
and no record of such a group is ever flagged: the NaN comparisons of
line 28 resolve to false, so the group contributes nothing to the anomaly
output and nothing is raised. -/
theorem C6_small_group_undefined_std
    (data : List TemperatureRecord) (k : String × String)
    (hsmall : (groupRows data k).length < 2) :
    (∀ st ∈ calculate_seasonal_statistics data,
        (st.city, st.season) = k → st.std_sq = none)
      ∧ ∀ l, find_anomalies data = some l →
          ∀ p ∈ l, (p.2.city, p.2.season) ≠ k := by
  have hvar : seriesVar ((groupRows data k).map (fun r => r.temperature))
      = none :=
    seriesVar_none_of_short (by rw [List.length_map]; exact hsmall)
  constructor
  · intro st hst hkey
    obtain ⟨k', hk', hkeq⟩ := List.mem_map.mp hst
    have hkk : k' = k := by
      rw [← hkeq] at hkey
      rw [← hkey]
    subst hkk
    rw [← hkeq]
    exact hvar
  · intro l hl p hp hkey
    obtain ⟨i, r⟩ := p
    have hcond := ((find_anomalies_mem hl).mp hp).2
    simp only at hkey
    rw [hkey, detector_group_stats_eq] at hcond
    simp only [hvar] at hcond
    rw [anomalyCond_none_std] at hcond
    exact Bool.false_ne_true hcond

theorem C6_small_group_undefined_std_witness :
    (∀ st ∈ calculate_seasonal_statistics oneRec,
        (st.city, st.season) = ("A", "w") → st.std_sq = none)
      ∧ ∀ l, find_anomalies oneRec = some l →
          ∀ p ∈ l, (p.2.city, p.2.season) ≠ ("A", "w") :=
  C6_small_group_undefined_std oneRec ("A", "w") (by decide)

/-- C7: for every (city, season) group with at least two records, the
SeasonalStat row produced by `calculate_seasonal_statistics` and the
aggregates `find_anomalies` computes internally for that same group are
numerically identical: same smoothed-temperature column, same grouping
key, same mean and same (squared) standard deviation. -/
theorem C7_stats_detector_agree
    (data : List TemperatureRecord) (st : SeasonalStat)
    (hst : st ∈ calculate_seasonal_statistics data)
    (hn : 2 ≤ (groupRows data (st.city, st.season)).length) :
    (st.mean, st.std_sq) = detector_group_stats data (st.city, st.season) := by
  obtain ⟨k, hk, hkeq⟩ := List.mem_map.mp hst
  subst hkeq
  rw [detector_group_stats_eq]

theorem C7_stats_detector_agree_witness :
    ((some 1 : Option ℚ), (some 9 : Option ℚ))
      = detector_group_stats (nineRun "A" 0) ("A", "s") :=
  C7_stats_detector_agree (nineRun "A" 0) ⟨"A", "s", some 1, some 9⟩
    (by decide) (by decide)

/-- C8 counterexample: the second half of the claim fails on the code.
After smoothing `d8raw` with window 2 the first record's smoothed value is
absent, yet `find_anomalies` — a downstream stage that consumes the
smoothed value — neither raises nor reports any MissingSmoothedValue
condition: it returns normally (`some []`), silently skipping the record
whose value is absent (pandas aggregations and comparisons ignore NaN). -/
theorem C8_no_missing_value_failure :
    ((smooth_temperature d8raw 2).get? 0).map (fun r => r.temperature)
        = some none
      ∧ find_anomalies (smooth_temperature d8raw 2) = some [] := by
  exact ⟨by decide, by decide⟩

/-- C8 amended: positions with fewer than W-1 prior records do receive an
explicit absent-value marker (the first half of the claim holds), and the
downstream anomaly stage handles absent smoothed values by silently
skipping them — a record with an absent value is never flagged and absent
entries are excluded from the group aggregates — rather than failing with
a MissingSmoothedValue condition (and it never treats them as zero). -/
theorem C8_amended_absent_skipped
    (data : List TemperatureRecord) (w i : Nat) (r : TemperatureRecord)
    (hi : i + 1 < w)
    (hr : (smooth_temperature data w).get? i = some r) :
    r.temperature = none
      ∧ ∀ (d : List TemperatureRecord) (l : List (Nat × TemperatureRecord)),
          find_anomalies d = some l → ∀ p ∈ l, p.2.temperature ≠ none := by
  constructor
  · simp only [smooth_temperature] at hr
    rw [List.get?_eq_getElem?, List.getElem?_mapIdx] at hr
    cases hg : data[i]? with
    | none => rw [hg] at hr; simp at hr
    | some q =>
      rw [hg] at hr
      simp only [Option.map_some'] at hr
      have hrq := Option.some_inj.mp hr
      rw [← hrq]
      simp only
      rw [rollingMeanAt, if_neg (by omega)]
  · intro d l hl p hp
    obtain ⟨j, q⟩ := p
    have hcond := ((find_anomalies_mem hl).mp hp).2
    intro hnone
    simp only at hnone
    rw [hnone, anomalyCond_none_temp] at hcond
    exact Bool.false_ne_true hcond

theorem C8_amended_absent_skipped_witness :
    (⟨"A", 0, "w", none⟩ : TemperatureRecord).temperature = none
      ∧ ∀ (d : List TemperatureRecord) (l : List (Nat × TemperatureRecord)),
          find_anomalies d = some l → ∀ p ∈ l, p.2.temperature ≠ none :=
  C8_amended_absent_skipped d8raw 2 0 ⟨"A", 0, "w", none⟩ (by decide)
    (by decide)

/-- C9: on any non-200 response the live branch of `main` produces a
structured `fetchError` carrying the provider's body — nothing is raised —
whose `message` string is shown verbatim inside the displayed error text;
and the historical results component of `main_flow` is the same for every
response whatsoever: the fetch failure is isolated to the
live-classification feature and cannot affect the already-computed
descriptive, seasonal and anomaly outputs. -/
theorem C9_fetch_failure_isolated
    (data0 : List TemperatureRecord) (city : String)
    (code : Nat) (body : WeatherJson) (m : String)
    (hcode : code ≠ 200) (hmsg : body.message = some m) :
    (main_flow data0 city code body).2 = LiveOutcome.fetchError (some body)
      ∧ error_display (some body) = some ("Ошибка: " ++ m)
      ∧ ∀ (other_code : Nat) (other_body : WeatherJson),
          (main_flow data0 city other_code other_body).1
            = (main_flow data0 city code body).1 := by
  refine ⟨?_, ?_, fun other_code other_body => rfl⟩
  · simp only [main_flow, live_outcome, get_current_temperature,
      if_neg hcode]
  · simp [error_display, hmsg]

theorem C9_fetch_failure_isolated_witness :
    (main_flow oneRec "A" 404 ⟨none, some "city not found"⟩).2
        = LiveOutcome.fetchError (some ⟨none, some "city not found"⟩)
      ∧ error_display (some ⟨none, some "city not found"⟩)
          = some ("Ошибка: " ++ "city not found")
      ∧ ∀ (other_code : Nat) (other_body : WeatherJson),
          (main_flow oneRec "A" other_code other_body).1
            = (main_flow oneRec "A" 404 ⟨none, some "city not found"⟩).1 :=
  C9_fetch_failure_isolated oneRec "A" 404 ⟨none, some "city not found"⟩
    "city not found" (by decide) rfl

/-- C10: the detector concatenates one (possibly empty) frame per group, so
with zero records there are zero groups and `pd.concat` of the empty list
raises `ValueError` (modelled `none`): an empty store makes the detector
fail rather than return an empty anomaly sequence, while any nonempty
store terminates normally. -/
theorem C10_empty_store_concat_fails :
    find_anomalies [] = none
      ∧ ∀ data : List TemperatureRecord, data ≠ [] →
          ∃ l, find_anomalies data = some l := by
  exact ⟨by decide, fun data h => ⟨_, find_anomalies_eq h⟩⟩

theorem C10_empty_store_concat_fails_witness :
    find_anomalies [] = none ∧ ∃ l, find_anomalies oneRec = some l :=
  ⟨C10_empty_store_concat_fails.1,
   C10_empty_store_concat_fails.2 oneRec (by decide)⟩

